import Mathlib

/-!
# Verification of the diesel Redis client (src/diesel/protocols/redis.py)

Shallow embedding of the RESP codec, the command channel, the transaction
manager (`RedisTransaction`), the distributed lock (`RedisLock`) and the
subscription read loop (`RedisClient.get_from_subscriptions`,
`RedisSubHub.__isglob`), together with theorems settling the frozen claims.

Bytes are modelled as `List Nat` (one entry per byte).  The transport
collaborator `until_eol` is modelled per its contract (spec §6): it returns
the line content excluding the CRLF terminator and consumes the terminator
from the stream.  `receive n` reads exactly `n` bytes.  The client is
modelled with `decode_responses = False` (the default), so bulk and simple
string replies stay raw bytes, exactly as the cited code paths produce them.
-/

namespace DieselRedis

/-- Byte string: a list of byte values. -/
abbrev Bytes := List Nat

/-- Bytes of an ASCII/Latin string literal, one byte per character
(agrees with UTF-8 on the ASCII command text used throughout the source). -/
def strBytes (s : String) : Bytes := s.data.map Char.toNat

/-- The CRLF line terminator. -/
def crlf : Bytes := [13, 10]

/-- Transport collaborator `until_eol`: split the stream at the first CRLF,
returning the line content (terminator excluded) and the remaining stream;
`none` when no full line is available (the real call would block forever). -/
def untilEol : Bytes → Option (Bytes × Bytes)
  | [] => Option.none
  | 13 :: 10 :: rest => some ([], rest)
  | b :: rest =>
    match untilEol rest with
    | Option.none => Option.none
    | some (line, s) => some (b :: line, s)

/-- Transport collaborator `receive n`: read exactly `n` bytes, `none` when
the stream holds fewer (the real call would block forever). -/
def receive (n : Nat) (s : Bytes) : Option (Bytes × Bytes) :=
  if n ≤ s.length then some (s.take n, s.drop n) else Option.none

/-- ASCII whitespace, as stripped by Python's `bytes.strip()`. -/
def isSpaceByte (b : Nat) : Bool := b == 32 || (9 ≤ b && b ≤ 13)

/-- Python `bytes.strip()`: drop ASCII whitespace from both ends. -/
def bstrip (l : Bytes) : Bytes :=
  ((l.dropWhile isSpaceByte).reverse.dropWhile isSpaceByte).reverse

/-- ASCII decimal digit. -/
def isDigitByte (b : Nat) : Bool := 48 ≤ b && b ≤ 57

/-- Numeric value of a run of ASCII digits. -/
def digitsVal (l : Bytes) : Nat := l.foldl (fun a b => a * 10 + (b - 48)) 0

/-- Python `int()` on a byte string: surrounding whitespace tolerated, one
optional sign, then at least one digit; anything else raises ValueError
(modelled as `none`).  (Digit-group underscores are not modelled; no input
in this development contains them.) -/
def parseIntBytes (l : Bytes) : Option Int :=
  let t := bstrip l
  match t with
  | 45 :: ds =>
    if ds.isEmpty then Option.none
    else if ds.all isDigitByte then some (-(digitsVal ds : Int)) else Option.none
  | 43 :: ds =>
    if ds.isEmpty then Option.none
    else if ds.all isDigitByte then some (digitsVal ds : Int) else Option.none
  | ds =>
    if ds.isEmpty then Option.none
    else if ds.all isDigitByte then some (digitsVal ds : Int) else Option.none

/-- The Python value produced by `RedisClient._get_response` (with
`decode_responses = False`): `None`, a byte string, an `int`, or a list.
Simple-string and bulk replies both arrive as plain byte strings, exactly as
in the source, so they share the `bulk` constructor. -/
inductive RValue
  | none
  | bulk (b : Bytes)
  | int (n : Int)
  | arr (l : List RValue)

/-- Python truthiness of a decoded reply (`if r:`). -/
def RValue.truthy : RValue → Bool
  | .none => false
  | .bulk b => !b.isEmpty
  | .int n => n != 0
  | .arr l => !l.isEmpty

/-- Exceptions escaping the decode path: `RedisError` for a `-` reply
(carrying the server message verbatim), Python runtime errors for the
malformed cases the source would hit, `blocked` for a starved transport
read, `fuelOut` for exhausted recursion fuel of the subscription loop. -/
inductive RErr
  | redisError (msg : Bytes)
  | valueError
  | indexError
  | assertionError
  | typeError
  | blocked
  | fuelOut
  deriving DecidableEq

/-- The element loop of the `*` branch of `_get_response`: read `n`
sub-replies, each restricted by the source's `assert` to `$`, `:` or `+`. -/
def readArrayElems : Nat → Bytes → List RValue → Except RErr (List RValue × Bytes)
  | 0, s, acc => .ok (acc.reverse, s)
  | n + 1, s, acc =>
    match untilEol s with
    | Option.none => .error .blocked
    | some (hl, s1) =>
      match hl with
      | [] => .error .indexError
      | c :: rest =>
        if c == 36 then
          match parseIntBytes rest with
          | Option.none => .error .valueError
          | some l =>
            if l == -1 then readArrayElems n s1 (RValue.none :: acc)
            else if l < 0 then .error .blocked
            else
              match receive l.toNat s1 with
              | Option.none => .error .blocked
              | some (payload, s2) =>
                match untilEol s2 with
                | Option.none => .error .blocked
                | some (_, s3) => readArrayElems n s3 (RValue.bulk payload :: acc)
        else if c == 58 then
          match parseIntBytes rest with
          | Option.none => .error .valueError
          | some v => readArrayElems n s1 (RValue.int v :: acc)
        else if c == 43 then
          readArrayElems n s1 (RValue.bulk (bstrip rest) :: acc)
        else .error .assertionError

/-- `RedisClient._get_response` (source lines 816-861) without a wake
signal: decode one reply from the stream.  A `-` reply raises `RedisError`
with the text after `-` verbatim; a lead byte outside `+ $ * : -` falls off
the end of the Python function and returns `None`. -/
def getResponse (s : Bytes) : Except RErr (RValue × Bytes) :=
  match untilEol s with
  | Option.none => .error .blocked
  | some (line, s1) =>
    match bstrip line with
    | [] => .error .indexError
    | c :: rest =>
      if c == 43 then .ok (.bulk rest, s1)
      else if c == 36 then
        match parseIntBytes rest with
        | Option.none => .error .valueError
        | some l =>
          if l == -1 then .ok (.none, s1)
          else if l < 0 then .error .blocked
          else
            match receive l.toNat s1 with
            | Option.none => .error .blocked
            | some (payload, s2) =>
              match untilEol s2 with
              | Option.none => .error .blocked
              | some (_, s3) => .ok (.bulk payload, s3)
      else if c == 42 then
        match parseIntBytes rest with
        | Option.none => .error .valueError
        | some count =>
          if count == -1 then .ok (.none, s1)
          else
            match readArrayElems count.toNat s1 [] with
            | .error e => .error e
            | .ok (elems, s2) => .ok (.arr elems, s2)
      else if c == 58 then
        match parseIntBytes rest with
        | Option.none => .error .valueError
        | some v => .ok (.int v, s1)
      else if c == 45 then .error (.redisError rest)
      else .ok (.none, s1)

/-- `_get_response(wake_sig)`: `first(until_eol=True, waits=[wake_sig])`
either delivers the line or the wake signal fires; when it fires the
function returns the same Python `None` a nil reply decodes to, with the
stream unconsumed.  The boolean says whether the wake signal won the race. -/
def getResponseWake (wake : Bool) (s : Bytes) : Except RErr (RValue × Bytes) :=
  if wake then .ok (.none, s) else getResponse s

/-- A Python value handed to `RedisClient._encode` (source lines 52-64).
Lean has no Python floats or arbitrary objects, so a float carries the text
`repr(value)` would produce and an arbitrary object carries the text
`str(value)` would produce. -/
inductive PyVal
  | bytes (b : Bytes)
  | int (n : Int)
  | float (r : String)
  | str (s : String)
  | other (s : String)

/-- `RedisClient._encode`, parametrised by the configured charset encoder
`enc` (text encoded with `self.encoding` / `self.encoding_errors`): raw
bytes pass through; an int renders as `str(value)` (decimal text); a float
as `repr(value)`; any other value as `str(value)`; resulting text is
encoded with `enc`. -/
def pyEncode (enc : String → Bytes) : PyVal → Bytes
  | .bytes b => b
  | .int n => enc (toString n)
  | .float r => enc r
  | .str s => enc s
  | .other s => enc s

/-- `RedisClient._send` (source lines 808-814): the bytes written for one
command, `*N` header then one `$len` framed element per coerced value.
The frame text itself is ASCII, written with the default utf-8 `encode()`. -/
def sendBytes (enc : String → Bytes) (vals : List PyVal) : Bytes :=
  let all := vals.map (pyEncode enc)
  strBytes ("*" ++ toString all.length ++ "\r\n") ++
    (all.map fun i => strBytes ("$" ++ toString i.length ++ "\r\n") ++ i ++ crlf).flatten

/-- The default utf-8 charset encoder, restricted to the ASCII texts this
development feeds it. -/
def asciiEnc : String → Bytes := strBytes

/-- The connection as seen by one client: the log of bytes sent so far and
the unread reply stream. -/
structure ClientState where
  sent : Bytes
  stream : Bytes

/-- Write one command to the connection (`self._send(...)`). -/
def pySend (enc : String → Bytes) (vals : List PyVal) (cs : ClientState) : ClientState :=
  { cs with sent := cs.sent ++ sendBytes enc vals }

/-- One command-channel round trip: `_send` then `_get_response`, the shape
of every command method that reads its reply. -/
def clientCall (enc : String → Bytes) (vals : List PyVal) (cs : ClientState) :
    Except RErr (RValue × ClientState) :=
  let cs1 := pySend enc vals cs
  match getResponse cs1.stream with
  | .error e => .error e
  | .ok (r, s1) => .ok (r, { cs1 with stream := s1 })

/-- `RedisClient.move` (source lines 147-149): `_send('MOVE', key, idx)`
with no `_get_response` call, so the reply stream is left untouched and
the method can never raise from a server error reply. -/
def moveCmd (enc : String → Bytes) (key idx : PyVal) (cs : ClientState) : ClientState :=
  pySend enc [.str "MOVE", key, idx] cs

/-- Python exceptions crossing the transaction and lock scopes. -/
inductive PyExc
  | redisTransactionError
  | lockNotAcquired
  | assertionError
  | other (tag : Nat)
  deriving DecidableEq

/-- `RedisTransaction` instance state: `self.value` (initially `None`) and
`self.aborted` (initially `False`). -/
structure TransState where
  value : RValue
  aborted : Bool

/-- The state `RedisTransaction.__init__` leaves behind. -/
def transInit : TransState := { value := .none, aborted := false }

/-- `RedisTransaction.__init__` (source lines 866-888): when `watch_keys`
is non-empty it issues `WATCH` with the keys (`self.client.watch`) on the
spot; the transaction starts with `value = None`, `aborted = False`. -/
def transNew (enc : String → Bytes) (watchKeys : List Bytes) (cs : ClientState) :
    Except RErr (TransState × ClientState) :=
  if watchKeys.isEmpty then .ok (transInit, cs)
  else
    match clientCall enc (PyVal.str "WATCH" :: watchKeys.map PyVal.bytes) cs with
    | .error e => .error e
    | .ok (_, cs1) => .ok (transInit, cs1)

/-- `RedisTransaction.__enter__`: issue `MULTI`. -/
def transEnter (enc : String → Bytes) (cs : ClientState) : Except RErr ClientState :=
  match clientCall enc [PyVal.str "MULTI"] cs with
  | .error e => .error e
  | .ok (_, cs1) => .ok cs1

/-- `RedisTransaction.__exit__` (source lines 898-913).  `exc` is the
exception active in the block (`None` on normal exit).  The result carries
the updated transaction state, the connection, and the exception the scope
finishes with (`__exit__` returns `False`, so an active `exc` propagates;
a nil `EXEC` reply raises `RedisTransactionError`).  Channel-level
failures (`RedisError` from an error reply, transport starvation) surface
as the outer `Except`. -/
def transExit (enc : String → Bytes) (exc : Option PyExc) (st : TransState)
    (cs : ClientState) : Except RErr (TransState × ClientState × Option PyExc) :=
  match exc with
  | some e =>
    match clientCall enc [PyVal.str "DISCARD"] cs with
    | .error er => .error er
    | .ok (_, cs1) => .ok ({ st with aborted := true }, cs1, some e)
  | Option.none =>
    match clientCall enc [PyVal.str "EXEC"] cs with
    | .error er => .error er
    | .ok (r, cs1) =>
      match r with
      | .none =>
        .ok ({ st with value := .none, aborted := true }, cs1, some .redisTransactionError)
      | r => .ok ({ st with value := r }, cs1, Option.none)

/-- `RedisLock.__enter__` (source lines 930-948): build the transaction
watching the key (which issues `WATCH` at once), `GET` the key, fail with
`LockNotAcquired` if a value is present, otherwise `MULTI`, queue
`SETEX key timeout token`, and commit; a `RedisTransactionError` from the
commit is converted to `LockNotAcquired`.  The background renewal fork is
a concurrency effect outside this embedding. -/
def lockEnter (enc : String → Bytes) (key token : Bytes) (timeout : Int)
    (cs : ClientState) : Except RErr (Option PyExc × ClientState) :=
  match transNew enc [key] cs with
  | .error e => .error e
  | .ok (st, cs1) =>
    match clientCall enc [PyVal.str "GET", PyVal.bytes key] cs1 with
    | .error e => .error e
    | .ok (v, cs2) =>
      if v.truthy then .ok (some .lockNotAcquired, cs2)
      else
        match transEnter enc cs2 with
        | .error e => .error e
        | .ok cs3 =>
          match clientCall enc
              [PyVal.str "SETEX", PyVal.bytes key, PyVal.int timeout, PyVal.bytes token] cs3 with
          | .error e => .error e
          | .ok (_, cs4) =>
            match transExit enc Option.none st cs4 with
            | .error e => .error e
            | .ok (_, cs5, some PyExc.redisTransactionError) =>
              .ok (some .lockNotAcquired, cs5)
            | .ok (_, cs5, some e) => .ok (some e, cs5)
            | .ok (_, cs5, Option.none) => .ok (Option.none, cs5)

/-- `RedisLock.__exit__` (source lines 950-954): set `self.in_block =
False` (the renewal task's stop flag) before anything else, `GET` the key,
`assert` the stored value equals this holder's token, and only then issue
`DEL`.  The returned boolean is the stop flag's value (always `False`);
a failed `assert` surfaces as `AssertionError` with no `DEL` issued. -/
def lockExit (enc : String → Bytes) (key token : Bytes) (cs : ClientState) :
    Except RErr (Bool × Option PyExc × ClientState) :=
  let inBlock := false
  match clientCall enc [PyVal.str "GET", PyVal.bytes key] cs with
  | .error e => .error e
  | .ok (v, cs1) =>
    match v with
    | .bulk b =>
      if b == token then
        match clientCall enc [PyVal.str "DEL", PyVal.bytes key] cs1 with
        | .error e => .error e
        | .ok (_, cs2) => .ok (inBlock, Option.none, cs2)
      else .ok (inBlock, some .assertionError, cs1)
    | _ => .ok (inBlock, some .assertionError, cs1)

/-- Python truthiness of a byte string. -/
def pyTruthyBytes (b : Bytes) : Bool := !b.isEmpty

/-- `RedisSubHub.__isglob` (source lines 1007-1008), booleanised by Python
truthiness of the returned object.  The source's last clause is literally
`(b'[' in glob and b']' and glob)`: the middle operand is the constant
bytes `b']'` (always truthy), not a membership test. -/
def isglob (g : Bytes) : Bool :=
  g.contains 42 || g.contains 63 || (g.contains 91 && pyTruthyBytes [93] && pyTruthyBytes g)

/-- The classification the spec describes (claim C7): glob iff the channel
contains `*`, or `?`, or a bracket pair (both `[` and `]`). -/
def isglobSpec (g : Bytes) : Bool :=
  g.contains 42 || g.contains 63 || (g.contains 91 && g.contains 93)

/-- The byte string b'message'. -/
def msgBytes : Bytes := strBytes "message"

/-- The byte string b'pmessage'. -/
def pmsgBytes : Bytes := strBytes "pmessage"

/-- Python `r[0] == b'...'` for a decoded reply element: only a byte
string can compare equal to a bytes literal. -/
def headIsBulk (r0 : RValue) (b : Bytes) : Bool :=
  match r0 with
  | .bulk x => x == b
  | _ => false

/-- `RedisClient.get_from_subscriptions` (source lines 746-770): loop
decoding replies (interruptibly, `wakes` listing per-iteration race
outcomes of the wake signal); a falsy reply returns `None`; a reply whose
`r[0]` equals b'message' returns `[r[1]] + r[1:]`; one whose `r[0]` equals
b'pmessage' returns `r[1:]`; any other truthy reply is discarded and the
loop continues.  Indexing a truthy non-subscriptable reply (an int)
raises `TypeError`; `r[1]` on a one-element message reply raises
`IndexError`.  `fuel` bounds the recursion; the source loop has no bound. -/
def getFromSubs : Nat → List Bool → Bytes → Except RErr (Option (List RValue) × Bytes)
  | 0, _, _ => .error .fuelOut
  | fuel + 1, wakes, s =>
    match getResponseWake (wakes.headD false) s with
    | .error e => .error e
    | .ok (r, s1) =>
      if r.truthy then
        match r with
        | .arr (r0 :: restl) =>
          if headIsBulk r0 msgBytes then
            match restl with
            | [] => .error .indexError
            | r1 :: _ => .ok (some (r1 :: restl), s1)
          else if headIsBulk r0 pmsgBytes then .ok (some restl, s1)
          else getFromSubs fuel wakes.tail s1
        | .arr [] => .error .indexError
        | .bulk _ => getFromSubs fuel wakes.tail s1
        | .int _ => .error .typeError
        | .none => .error .typeError
      else .ok (Option.none, s1)

/-- One step of the subscription wait, as the (amended) claim describes the
returned values: a falsy reply yields `None`; an array headed by
b'message' yields the channel twice then the payload tail (crashing when
the reply has no second element); an array headed by b'pmessage' yields
the reply's tail; a truthy int crashes; every other truthy reply is
discarded and the wait continues. -/
inductive SubStep
  | ret (v : Option (List RValue))
  | crash (e : RErr)
  | next

/-- Spec-side classification of one decoded reply for the subscription
wait, written from the amended claim's words. -/
def classifySub (r : RValue) : SubStep :=
  if r.truthy then
    match r with
    | .arr (r0 :: restl) =>
      if headIsBulk r0 msgBytes then
        match restl with
        | [] => .crash .indexError
        | r1 :: rest2 => .ret (some (r1 :: r1 :: rest2))
      else if headIsBulk r0 pmsgBytes then .ret (some restl)
      else .next
    | .arr [] => .crash .indexError
    | .bulk _ => .next
    | .int _ => .crash .typeError
    | .none => .crash .typeError
  else .ret Option.none

/-! ## Theorems -/

/-- Helper: a successful round trip through `clientCall` in terms of the
decode of the client's reply stream. -/
theorem clientCall_eq (enc : String → Bytes) (vals : List PyVal) (cs : ClientState)
    (r : RValue) (s1 : Bytes) (h : getResponse cs.stream = .ok (r, s1)) :
    clientCall enc vals cs = .ok (r, ⟨cs.sent ++ sendBytes enc vals, s1⟩) := by
  unfold clientCall pySend
  dsimp only
  rw [h]

/-- Helper: the two outcomes of `transExit` on a normal exit, by the
nil-ness of the decoded `EXEC` reply. -/
theorem trans_exec_cases (enc : String → Bytes) (st : TransState)
    (cs : ClientState) (r : RValue) (s1 : Bytes)
    (h : getResponse cs.stream = .ok (r, s1)) :
    (r ≠ RValue.none →
      transExit enc Option.none st cs =
        .ok ({ st with value := r },
             ⟨cs.sent ++ sendBytes enc [PyVal.str "EXEC"], s1⟩, Option.none)) ∧
    (r = RValue.none →
      transExit enc Option.none st cs =
        .ok ({ st with value := .none, aborted := true },
             ⟨cs.sent ++ sendBytes enc [PyVal.str "EXEC"], s1⟩,
             some PyExc.redisTransactionError)) := by
  have hc := clientCall_eq enc [PyVal.str "EXEC"] cs r s1 h
  constructor
  · intro hr
    unfold transExit
    rw [hc]
    cases r with
    | none => exact absurd rfl hr
    | bulk b => rfl
    | int n => rfl
    | arr l => rfl
  · intro hr
    subst hr
    unfold transExit
    rw [hc]

/-- C1: on normal exit of a transaction scope, `EXEC` is issued; a non-nil
reply becomes the transaction's `value` with the scope completing without
exception, while a nil reply marks the transaction aborted and raises the
distinguished `RedisTransactionError`, so a nil `EXEC` never lets the scope
complete as success. -/
theorem trans_normal_exit_exec (enc : String → Bytes) (st : TransState)
    (cs : ClientState) (r : RValue) (s1 : Bytes)
    (h : getResponse cs.stream = .ok (r, s1)) :
    (r ≠ RValue.none →
      transExit enc Option.none st cs =
        .ok ({ st with value := r },
             ⟨cs.sent ++ sendBytes enc [PyVal.str "EXEC"], s1⟩, Option.none)) ∧
    (r = RValue.none →
      transExit enc Option.none st cs =
        .ok ({ st with value := .none, aborted := true },
             ⟨cs.sent ++ sendBytes enc [PyVal.str "EXEC"], s1⟩,
             some PyExc.redisTransactionError)) :=
  trans_exec_cases enc st cs r s1 h

/-- Witness for `trans_normal_exit_exec` at a concrete non-nil `EXEC`
reply. -/
theorem trans_normal_exit_exec_witness :
    transExit asciiEnc Option.none transInit ⟨[], strBytes "*1\r\n+OK\r\n"⟩ =
      .ok ({ transInit with value := .arr [.bulk (strBytes "OK")] },
           ⟨sendBytes asciiEnc [PyVal.str "EXEC"], []⟩, Option.none) :=
  (trans_normal_exit_exec asciiEnc transInit ⟨[], strBytes "*1\r\n+OK\r\n"⟩
      (.arr [.bulk (strBytes "OK")]) [] (by rfl)).1
    (fun hne => RValue.noConfusion hne)

/-- C2: on exceptional exit of a transaction scope, `DISCARD` (not `EXEC`)
is the one command issued, the original fault propagates unchanged, and the
transaction's `value` is left untouched (so it stays the initial `None`). -/
theorem trans_fault_exit_discard (enc : String → Bytes) (e : PyExc)
    (st : TransState) (cs : ClientState) (r : RValue) (s1 : Bytes)
    (h : getResponse cs.stream = .ok (r, s1)) :
    transExit enc (some e) st cs =
      .ok ({ st with aborted := true },
           ⟨cs.sent ++ sendBytes enc [PyVal.str "DISCARD"], s1⟩, some e) ∧
    ({ st with aborted := true } : TransState).value = st.value := by
  have hc := clientCall_eq enc [PyVal.str "DISCARD"] cs r s1 h
  constructor
  · unfold transExit
    rw [hc]
  · rfl

/-- Witness for `trans_fault_exit_discard` at a concrete fault and a
concrete `+OK` reply to `DISCARD`. -/
theorem trans_fault_exit_discard_witness :
    transExit asciiEnc (some (PyExc.other 7)) transInit ⟨[], strBytes "+OK\r\n"⟩ =
      .ok ({ transInit with aborted := true },
           ⟨sendBytes asciiEnc [PyVal.str "DISCARD"], []⟩, some (PyExc.other 7)) :=
  (trans_fault_exit_discard asciiEnc (PyExc.other 7) transInit
      ⟨[], strBytes "+OK\r\n"⟩ (.bulk (strBytes "OK")) [] (by rfl)).1

/-- C3 counterexample: with a value already stored at the key, lock
acquisition does fail with `LockNotAcquired` — but only after the `WATCH`
command has already been written to the connection (the transaction object
is built, issuing `WATCH`, before the plain `GET`), refuting the claim
that a present value fails the acquisition before any transaction (WATCH)
is opened. -/
theorem lock_acquire_watch_before_get_cex :
    lockEnter asciiEnc (strBytes "k") (strBytes "t") 30
        ⟨[], strBytes "+OK\r\n$1\r\nv\r\n"⟩ =
      .ok (some PyExc.lockNotAcquired,
           ⟨sendBytes asciiEnc [PyVal.str "WATCH", PyVal.bytes (strBytes "k")] ++
              sendBytes asciiEnc [PyVal.str "GET", PyVal.bytes (strBytes "k")], []⟩) ∧
    sendBytes asciiEnc [PyVal.str "WATCH", PyVal.bytes (strBytes "k")] ≠ [] :=
  ⟨rfl, by decide⟩

/-- C3 (amended): lock acquisition first builds the transaction watching
the key — issuing `WATCH` — and then reads the key with a plain `GET`; if
a value is present it fails with `LockNotAcquired` having sent only
`WATCH` and `GET` (before `MULTI`); otherwise it issues `MULTI`, queues
`SETEX key timeout token`, and commits with `EXEC`, failing with
`LockNotAcquired` exactly when the commit reports contention (nil `EXEC`
reply) and acquiring the lock otherwise. -/
theorem lock_acquire_protocol (enc : String → Bytes) (key token : Bytes)
    (tm : Int) (cs : ClientState) (rw rg : RValue) (s1 s2 : Bytes)
    (hw : getResponse cs.stream = .ok (rw, s1))
    (hg : getResponse s1 = .ok (rg, s2)) :
    (rg.truthy = true →
      lockEnter enc key token tm cs =
        .ok (some PyExc.lockNotAcquired,
             ⟨(cs.sent ++ sendBytes enc [PyVal.str "WATCH", PyVal.bytes key]) ++
                sendBytes enc [PyVal.str "GET", PyVal.bytes key], s2⟩)) ∧
    (rg.truthy = false → ∀ (rm rq re : RValue) (s3 s4 s5 : Bytes),
      getResponse s2 = .ok (rm, s3) →
      getResponse s3 = .ok (rq, s4) →
      getResponse s4 = .ok (re, s5) →
      (re = RValue.none →
        lockEnter enc key token tm cs =
          .ok (some PyExc.lockNotAcquired,
               ⟨((((cs.sent ++ sendBytes enc [PyVal.str "WATCH", PyVal.bytes key]) ++
                    sendBytes enc [PyVal.str "GET", PyVal.bytes key]) ++
                   sendBytes enc [PyVal.str "MULTI"]) ++
                  sendBytes enc [PyVal.str "SETEX", PyVal.bytes key, PyVal.int tm,
                                 PyVal.bytes token]) ++
                 sendBytes enc [PyVal.str "EXEC"], s5⟩)) ∧
      (re ≠ RValue.none →
        lockEnter enc key token tm cs =
          .ok (Option.none,
               ⟨((((cs.sent ++ sendBytes enc [PyVal.str "WATCH", PyVal.bytes key]) ++
                    sendBytes enc [PyVal.str "GET", PyVal.bytes key]) ++
                   sendBytes enc [PyVal.str "MULTI"]) ++
                  sendBytes enc [PyVal.str "SETEX", PyVal.bytes key, PyVal.int tm,
                                 PyVal.bytes token]) ++
                 sendBytes enc [PyVal.str "EXEC"], s5⟩))) := by
  have hcw : clientCall enc (PyVal.str "WATCH" :: [key].map PyVal.bytes) cs =
      .ok (rw, ⟨cs.sent ++ sendBytes enc [PyVal.str "WATCH", PyVal.bytes key], s1⟩) :=
    clientCall_eq enc _ cs rw s1 hw
  have htn : transNew enc [key] cs =
      .ok (transInit,
           ⟨cs.sent ++ sendBytes enc [PyVal.str "WATCH", PyVal.bytes key], s1⟩) := by
    unfold transNew
    rw [if_neg (by simp)]
    rw [hcw]
  constructor
  · intro htr
    unfold lockEnter
    rw [htn]
    dsimp only
    rw [clientCall_eq enc [PyVal.str "GET", PyVal.bytes key]
          ⟨cs.sent ++ sendBytes enc [PyVal.str "WATCH", PyVal.bytes key], s1⟩ rg s2 hg]
    dsimp only
    rw [htr]
    rfl
  · intro htr rm rq re s3 s4 s5 hm hq he
    have hbody : lockEnter enc key token tm cs =
        match transExit enc Option.none transInit
            ⟨((((cs.sent ++ sendBytes enc [PyVal.str "WATCH", PyVal.bytes key]) ++
                 sendBytes enc [PyVal.str "GET", PyVal.bytes key]) ++
                sendBytes enc [PyVal.str "MULTI"]) ++
               sendBytes enc [PyVal.str "SETEX", PyVal.bytes key, PyVal.int tm,
                              PyVal.bytes token]), s4⟩ with
        | .error e => .error e
        | .ok (_, cs5, some PyExc.redisTransactionError) =>
          .ok (some PyExc.lockNotAcquired, cs5)
        | .ok (_, cs5, some e) => .ok (some e, cs5)
        | .ok (_, cs5, Option.none) => .ok (Option.none, cs5) := by
      unfold lockEnter
      rw [htn]
      dsimp only
      rw [clientCall_eq enc [PyVal.str "GET", PyVal.bytes key]
          ⟨cs.sent ++ sendBytes enc [PyVal.str "WATCH", PyVal.bytes key], s1⟩ rg s2 hg]
      dsimp only
      rw [htr]
      rw [if_neg (fun h => Bool.noConfusion h)]
      unfold transEnter
      rw [clientCall_eq enc [PyVal.str "MULTI"]
            ⟨(cs.sent ++ sendBytes enc [PyVal.str "WATCH", PyVal.bytes key]) ++
               sendBytes enc [PyVal.str "GET", PyVal.bytes key], s2⟩ rm s3 hm]
      dsimp only
      rw [clientCall_eq enc
            [PyVal.str "SETEX", PyVal.bytes key, PyVal.int tm, PyVal.bytes token]
            ⟨((cs.sent ++ sendBytes enc [PyVal.str "WATCH", PyVal.bytes key]) ++
                sendBytes enc [PyVal.str "GET", PyVal.bytes key]) ++
               sendBytes enc [PyVal.str "MULTI"], s3⟩ rq s4 hq]
    have hex := trans_exec_cases enc transInit
        ⟨((((cs.sent ++ sendBytes enc [PyVal.str "WATCH", PyVal.bytes key]) ++
             sendBytes enc [PyVal.str "GET", PyVal.bytes key]) ++
            sendBytes enc [PyVal.str "MULTI"]) ++
           sendBytes enc [PyVal.str "SETEX", PyVal.bytes key, PyVal.int tm,
                          PyVal.bytes token]), s4⟩ re s5 he
    constructor
    · intro hnil
      rw [hbody, hex.2 hnil]
    · intro hnn
      rw [hbody, hex.1 hnn]

/-- Witness for `lock_acquire_protocol`: a full successful acquisition
against concrete replies (`WATCH` ok, `GET` nil, `MULTI` ok, `SETEX`
queued, `EXEC` non-nil). -/
theorem lock_acquire_protocol_witness :
    lockEnter asciiEnc (strBytes "k") (strBytes "t") 30
        ⟨[], strBytes "+OK\r\n$-1\r\n+OK\r\n+QUEUED\r\n*1\r\n+OK\r\n"⟩ =
      .ok (Option.none,
           ⟨(((sendBytes asciiEnc [PyVal.str "WATCH", PyVal.bytes (strBytes "k")] ++
                sendBytes asciiEnc [PyVal.str "GET", PyVal.bytes (strBytes "k")]) ++
               sendBytes asciiEnc [PyVal.str "MULTI"]) ++
              sendBytes asciiEnc [PyVal.str "SETEX", PyVal.bytes (strBytes "k"),
                                  PyVal.int 30, PyVal.bytes (strBytes "t")]) ++
             sendBytes asciiEnc [PyVal.str "EXEC"], []⟩) :=
  (((lock_acquire_protocol asciiEnc (strBytes "k") (strBytes "t") 30
        ⟨[], strBytes "+OK\r\n$-1\r\n+OK\r\n+QUEUED\r\n*1\r\n+OK\r\n"⟩
        (.bulk (strBytes "OK")) .none
        (strBytes "$-1\r\n+OK\r\n+QUEUED\r\n*1\r\n+OK\r\n")
        (strBytes "+OK\r\n+QUEUED\r\n*1\r\n+OK\r\n")
        (by rfl) (by rfl)).2
      (by rfl) (.bulk (strBytes "OK")) (.bulk (strBytes "QUEUED"))
      (.arr [.bulk (strBytes "OK")])
      (strBytes "+QUEUED\r\n*1\r\n+OK\r\n") (strBytes "*1\r\n+OK\r\n") []
      (by rfl) (by rfl) (by rfl)).2
    (fun h => RValue.noConfusion h))

/-- C4: releasing the lock first lowers the renewal task's stop flag (the
returned boolean is `false` on every path), then reads the key; when the
stored value differs from this holder's token the release fails loudly
with `AssertionError` and no `DEL` is written; when it matches, `DEL` is
issued and the release completes cleanly. -/
theorem lock_release_protocol (enc : String → Bytes) (key token : Bytes)
    (cs : ClientState) (v : RValue) (s1 : Bytes)
    (h : getResponse cs.stream = .ok (v, s1)) :
    (v ≠ RValue.bulk token →
      lockExit enc key token cs =
        .ok (false, some PyExc.assertionError,
             ⟨cs.sent ++ sendBytes enc [PyVal.str "GET", PyVal.bytes key], s1⟩)) ∧
    (v = RValue.bulk token → ∀ (rd : RValue) (s2 : Bytes),
      getResponse s1 = .ok (rd, s2) →
      lockExit enc key token cs =
        .ok (false, Option.none,
             ⟨(cs.sent ++ sendBytes enc [PyVal.str "GET", PyVal.bytes key]) ++
                sendBytes enc [PyVal.str "DEL", PyVal.bytes key], s2⟩)) := by
  have hc := clientCall_eq enc [PyVal.str "GET", PyVal.bytes key] cs v s1 h
  constructor
  · intro hv
    unfold lockExit
    rw [hc]
    dsimp only
    cases v with
    | none => rfl
    | int n => rfl
    | arr l => rfl
    | bulk b =>
      have hb : (b == token) = false := by
        cases hbe : b == token with
        | false => rfl
        | true => exact absurd (congrArg RValue.bulk (eq_of_beq hbe)) hv
      dsimp only
      rw [hb]
      rfl
  · intro hv rd s2 hd
    subst hv
    unfold lockExit
    rw [hc]
    dsimp only
    rw [beq_self_eq_true token]
    rw [if_pos rfl]
    rw [clientCall_eq enc [PyVal.str "DEL", PyVal.bytes key]
          ⟨cs.sent ++ sendBytes enc [PyVal.str "GET", PyVal.bytes key], s1⟩ rd s2 hd]

/-- Witness for `lock_release_protocol`: the stored value matches the
holder's token, so `DEL` is issued and the release succeeds. -/
theorem lock_release_protocol_witness :
    lockExit asciiEnc (strBytes "k") (strBytes "t")
        ⟨[], strBytes "$1\r\nt\r\n:1\r\n"⟩ =
      .ok (false, Option.none,
           ⟨(sendBytes asciiEnc [PyVal.str "GET", PyVal.bytes (strBytes "k")]) ++
              sendBytes asciiEnc [PyVal.str "DEL", PyVal.bytes (strBytes "k")], []⟩) :=
  (lock_release_protocol asciiEnc (strBytes "k") (strBytes "t")
      ⟨[], strBytes "$1\r\nt\r\n:1\r\n"⟩ (.bulk (strBytes "t")) (strBytes ":1\r\n")
      (by rfl)).2 (by rfl) (.int 1) [] (by rfl)

/-- C5: decoding `$-1\r\n` yields the nil value, distinct from the empty
non-nil byte string that `$0\r\n\r\n` yields; decoding `*-1\r\n` yields
the nil value, distinct from the empty non-nil array that `*0\r\n`
yields. -/
theorem decode_nil_distinction :
    getResponse (strBytes "$-1\r\n") = .ok (.none, []) ∧
    getResponse (strBytes "$0\r\n\r\n") = .ok (.bulk [], []) ∧
    RValue.none ≠ RValue.bulk [] ∧
    getResponse (strBytes "*-1\r\n") = .ok (.none, []) ∧
    getResponse (strBytes "*0\r\n") = .ok (.arr [], []) ∧
    RValue.none ≠ RValue.arr [] :=
  ⟨rfl, rfl, fun h => RValue.noConfusion h, rfl, rfl, fun h => RValue.noConfusion h⟩

/-- C6 (code bug): the decoder turns a `-ERR bad\r\n` reply into a
`RedisError` carrying "ERR bad" verbatim — the failure every command
method that reads its reply propagates — but `move` never reads a reply:
with that error reply pending, `moveCmd` returns normally and leaves the
reply stream untouched on every input, so the claim's "every command
method" fails at `move`. -/
theorem move_ignores_error_reply :
    getResponse (strBytes "-ERR bad\r\n") =
      .error (.redisError (strBytes "ERR bad")) ∧
    moveCmd asciiEnc (PyVal.bytes (strBytes "k")) (PyVal.int 0)
        ⟨[], strBytes "-ERR bad\r\n"⟩ =
      ⟨sendBytes asciiEnc [PyVal.str "MOVE", PyVal.bytes (strBytes "k"), PyVal.int 0],
       strBytes "-ERR bad\r\n"⟩ ∧
    ∀ (enc : String → Bytes) (k i : PyVal) (cs : ClientState),
      (moveCmd enc k i cs).stream = cs.stream :=
  ⟨rfl, rfl, fun _ _ _ _ => rfl⟩

/-- C7 (code bug): the channel `b"p["` contains `[` but no `]` (and no `*`
or `?`), yet `__isglob` classifies it glob-match — its last clause is
`b'[' in glob and b']' and glob`, whose middle operand is the constant
truthy bytes `b']'` rather than a membership test — while the spec's
bracket-pair rule classifies it exact-match. -/
theorem isglob_bracket_without_close :
    isglob (strBytes "p[") = true ∧
    isglobSpec (strBytes "p[") = false ∧
    (strBytes "p[").contains 91 = true ∧
    (strBytes "p[").contains 93 = false :=
  ⟨rfl, rfl, rfl, rfl⟩

/-- C8: decoding `*3\r\n:1\r\n$3\r\nfoo\r\n+OK\r\n` yields exactly the
ordered sequence [integer 1, byte string "foo", byte string "OK"], the
whole input consumed. -/
theorem decode_array_example :
    getResponse (strBytes "*3\r\n:1\r\n$3\r\nfoo\r\n+OK\r\n") =
      .ok (.arr [.int 1, .bulk (strBytes "foo"), .bulk (strBytes "OK")], []) :=
  rfl

/-- C9: `_send` produces exactly `*N\r\n` with `N = 1 +` the number of
arguments, followed per element by `$len\r\n<bytes>\r\n`, the elements
coerced by `_encode`: raw bytes unchanged, integers as decimal text,
floats via their textual representation, strings and any other value via
their textual form, text encoded with the configured charset encoder. -/
theorem send_encoding_format (enc : String → Bytes) (cmd : PyVal)
    (args : List PyVal) :
    sendBytes enc (cmd :: args) =
      strBytes ("*" ++ toString (1 + args.length) ++ "\r\n") ++
        ((cmd :: args).map fun v =>
          strBytes ("$" ++ toString (pyEncode enc v).length ++ "\r\n") ++
            pyEncode enc v ++ crlf).flatten ∧
    (∀ b, pyEncode enc (.bytes b) = b) ∧
    (∀ n : Int, pyEncode enc (.int n) = enc (toString n)) ∧
    (∀ r, pyEncode enc (.float r) = enc r) ∧
    (∀ s, pyEncode enc (.str s) = enc s) ∧
    (∀ s, pyEncode enc (.other s) = enc s) := by
  refine ⟨?_, fun _ => rfl, fun _ => rfl, fun _ => rfl, fun _ => rfl, fun _ => rfl⟩
  unfold sendBytes
  simp only [List.length_map, List.length_cons, List.map_map, Function.comp_def]
  rw [Nat.add_comm]

/-- C10 counterexample: with the wake signal never firing, a decoded empty
array reply (`*0\r\n` — a falsy value, like nil or integer 0) makes
`get_from_subscriptions` return `None`, refuting that `None` is returned
exactly when the wake signal fires. -/
theorem get_from_subscriptions_none_without_wake_cex :
    getFromSubs 2 [false] (strBytes "*0\r\n") = .ok (Option.none, []) ∧
    [false].headD false = false :=
  ⟨rfl, rfl⟩

/-- C10 (amended): each iteration of `get_from_subscriptions` decodes one
reply (or observes the wake signal, which yields the same falsy `None` a
nil reply decodes to) and then behaves exactly as `classifySub` describes:
a falsy reply returns `None`; an array reply headed by b'message' returns
the channel twice then the payload tail (an `IndexError` when it has no
second element); one headed by b'pmessage' returns the reply's tail; a
truthy integer reply raises `TypeError`; every other truthy reply is
consumed and silently discarded, the wait continuing. -/
theorem get_from_subscriptions_step (fuel : Nat) (wakes : List Bool)
    (s : Bytes) :
    getFromSubs (fuel + 1) wakes s =
      match getResponseWake (wakes.headD false) s with
      | .error e => .error e
      | .ok (r, s1) =>
        match classifySub r with
        | .ret v => .ok (v, s1)
        | .crash e => .error e
        | .next => getFromSubs fuel wakes.tail s1 := by
  conv_lhs => rw [getFromSubs]
  cases hg : getResponseWake (wakes.headD false) s with
  | error e => rfl
  | ok p =>
    obtain ⟨r, s1⟩ := p
    dsimp only
    cases r with
    | none => rfl
    | int n => cases hn : n != 0 <;> simp [classifySub, RValue.truthy, hn]
    | bulk b => cases hb : b.isEmpty <;> simp [classifySub, RValue.truthy, hb]
    | arr l =>
      cases l with
      | nil => rfl
      | cons r0 restl =>
        cases hm : headIsBulk r0 msgBytes with
        | true => cases restl <;> simp [classifySub, RValue.truthy, hm]
        | false =>
          cases hp : headIsBulk r0 pmsgBytes <;>
            simp [classifySub, RValue.truthy, hm, hp]

end DieselRedis
